import Mathlib

/-!
Shallow embedding of the Operator Department Updater pipeline
(source file `operator_department_updater.py`).  Python strings are
modelled as Lean `String`s with ASCII semantics for `isdigit`,
`strip` and `lower`; file-system state is modelled by explicit lists
of file descriptors; the orchestrator `main` is modelled as a pure
function over a `World` record collecting the outcome of every
external effect (file copies, subprocess run, SMTP send, ...).
-/

set_option maxRecDepth 8000

/-- Python `str.strip` on a character list: drop leading and trailing
whitespace. -/
def pyStripL (l : List Char) : List Char :=
  ((l.dropWhile Char.isWhitespace).reverse.dropWhile Char.isWhitespace).reverse

/-- Python `str.strip` for `String`. -/
def pyStrip (s : String) : String := String.mk (pyStripL s.data)

/-- Python `str.lower` (ASCII scope). -/
def pyLower (s : String) : String := String.mk (s.data.map Char.toLower)

/-- Python `str.startswith`. -/
def pyStartswith (s p : String) : Bool := p.data.isPrefixOf s.data

/-- Source `norm_num` (lines 131-135), character-list level: keep the
digits; if none remain return the stripped original, otherwise strip
leading zeros, collapsing an all-zero string to a single zero. -/
def normNumL (l : List Char) : List Char :=
  let t := l.filter Char.isDigit
  if t = [] then pyStripL l
  else
    let u := t.dropWhile (fun c => c == '0')
    if u = [] then ['0'] else u

/-- Source `norm_num` (lines 131-135). -/
def normNum (s : String) : String := String.mk (normNumL s.data)

/-- A parsed row of `UnmatchedDepartment.csv`: the dict built at
line 173 of the source (`OPER_oper_no`, `CS_Dept`, optional `AW_Dept`). -/
structure Rec where
  oper : String
  newd : String
  oldd : Option String
deriving DecidableEq, Repr

/-- Synonyms accepted for the operator-id column (line 147). -/
def operSyns : List String :=
  ["oper_oper_no", "oper no", "oper_no", "operator id", "operator", "oper id", "id", "oper"]

/-- Synonyms accepted for the new-department column (line 149). -/
def newSyns : List String :=
  ["cs_dept", "cs dept", "cd_dept", "dept_code", "dept code", "dept", "department", "new dept", "new department"]

/-- Synonyms accepted for the old-department column (line 151). -/
def oldSyns : List String :=
  ["aw_dept", "aw dept", "aw_dept_code", "aw dept code"]

/-- The role-to-column-index dictionary `name_map` of `read_unmatched`. -/
structure NameMap where
  oper : Option Nat
  newd : Option Nat
  oldd : Option Nat
deriving DecidableEq, Repr

/-- One iteration of the header-matching loop (lines 146-152): a later
match overwrites an earlier one, mirroring the dict assignment. -/
def nameMapStep (m : NameMap) (ih : Nat × String) : NameMap :=
  let h := pyLower (pyStrip ih.2)
  { oper := if operSyns.contains h then some ih.1 else m.oper,
    newd := if newSyns.contains h then some ih.1 else m.newd,
    oldd := if oldSyns.contains h then some ih.1 else m.oldd }

/-- The header-matching loop of `read_unmatched` (lines 144-152). -/
def buildNameMap (header : List String) : NameMap :=
  (header.enum).foldl nameMapStep ⟨none, none, none⟩

/-- Positional fallback of `read_unmatched` (lines 154-160): applied
when the operator-id or the new-department role is unmatched. -/
def finalNameMap (header : List String) : NameMap :=
  let m := buildNameMap header
  if m.oper.isNone || m.newd.isNone then
    { oper := some 0,
      oldd := if 3 ≤ header.length then some 1 else m.oldd,
      newd := if 3 ≤ header.length then some 2
              else if 2 ≤ header.length then some 1 else m.newd }
  else m

/-- The local `cell` helper of `read_unmatched` (lines 162-163). -/
def cellAt (r : List String) (i : Nat) : String := pyStrip (r.getD i (""))

/-- One data row of `read_unmatched` (lines 166-176).  A missing
required index raises `KeyError` in Python, modelled as `Except.error`. -/
def readUnmatchedRow (m : NameMap) (r : List String) : Except String (Option Rec) :=
  if r.isEmpty then .ok none
  else
    match m.oper with
    | none => .error ("KeyError")
    | some io =>
      let oper := cellAt r io
      match m.newd with
      | none => .error ("KeyError")
      | some inw =>
        let newd := cellAt r inw
        if oper = "" ∨ newd = "" then .ok none
        else .ok (some { oper := normNum oper, newd := normNum newd,
                         oldd := m.oldd.map (fun i => normNum (cellAt r i)) })

/-- The data-row loop of `read_unmatched`. -/
def readUnmatchedGo (m : NameMap) : List (List String) → Except String (List Rec)
  | [] => .ok []
  | r :: rs =>
    match readUnmatchedRow m r with
    | .error e => .error e
    | .ok none => readUnmatchedGo m rs
    | .ok (some rec) => (readUnmatchedGo m rs).map (fun l => rec :: l)

/-- Source `read_unmatched` (lines 138-177) on the already-decoded CSV
rows: fewer than two rows yields no records; otherwise the first row is
the header and the rest are data rows. -/
def read_unmatched (rows : List (List String)) : Except String (List Rec) :=
  if rows.length < 2 then .ok []
  else
    match rows with
    | [] => .ok []
    | header :: dataRows => readUnmatchedGo (finalNameMap header) dataRows

/-- Rightmost header column whose stripped, lowered title is in the
synonym list: the property C10 asserts of the header-matching loop. -/
def lastIdxMatching (syns : List String) (header : List String) : Option Nat :=
  (((header.enum).reverse).find? (fun p => syns.contains (pyLower (pyStrip p.2)))).map Prod.fst

/-- First-some choice on options (used to state fold characterizations). -/
def optOr (a b : Option α) : Option α :=
  match a with
  | some x => some x
  | none => b

/-- Header auto-detection of `index_active_list` (lines 192-198): skip
row 0 when column 0 or column 3 contains no digit. -/
def startIdx (rows : List (List String)) : Nat :=
  match rows with
  | [] => 0
  | first :: _ =>
    if first.isEmpty then 0
    else
      let c0 := pyStrip (first.getD 0 (""))
      let c3 := pyStrip (first.getD 3 (""))
      if !(c0.data.any Char.isDigit) || !(c3.data.any Char.isDigit) then 1 else 0

/-- Python `dict.setdefault` on an association list: insert only when
the key is absent. -/
def setdefault (m : List (String × String)) (k v : String) : List (String × String) :=
  match m.lookup k with
  | some _ => m
  | none => m ++ [(k, v)]

/-- Body of the data-row loop of `index_active_list` (lines 200-210):
rows with fewer than 4 columns are skipped; empty normalized keys do
not contribute; present keys are inserted with `setdefault`. -/
def activeStep (maps : List (String × String) × List (String × String)) (r : List String) :
    List (String × String) × List (String × String) :=
  if r.length < 4 then maps
  else
    let deptCode := normNum (r.getD 0 (""))
    let deptName := pyStrip (r.getD 1 (""))
    let operName := pyStrip (r.getD 2 (""))
    let operId := normNum (r.getD 3 (""))
    let m2 := if deptCode = "" then maps.2 else setdefault maps.2 deptCode deptName
    let m1 := if operId = "" then maps.1 else setdefault maps.1 operId operName
    (m1, m2)

/-- Source `index_active_list` (lines 181-211).  The first component
maps operator id to operator name, the second maps department code to
department name; a missing reference file yields two empty maps. -/
def index_active_list (csvExists : Bool) (rows : List (List String)) :
    List (String × String) × List (String × String) :=
  if csvExists = false then ([], [])
  else if rows.isEmpty then ([], [])
  else (rows.drop (startIdx rows)).foldl activeStep ([], [])

/-- Contribution predicate for the operator map: a data row contributes
the key `k` exactly when it has at least 4 columns and its normalized
column 3 is the non-empty key `k`. -/
def operPred (k : String) (r : List String) : Bool :=
  decide (4 ≤ r.length) && (normNum (r.getD 3 ("")) != "") && (normNum (r.getD 3 ("")) == k)

/-- Value of the first data row contributing `k` to the operator map. -/
def firstOperName (data : List (List String)) (k : String) : Option String :=
  (data.find? (operPred k)).map (fun r => pyStrip (r.getD 2 ("")))

/-- Contribution predicate for the department map. -/
def deptPred (k : String) (r : List String) : Bool :=
  decide (4 ≤ r.length) && (normNum (r.getD 0 ("")) != "") && (normNum (r.getD 0 ("")) == k)

/-- Value of the first data row contributing `k` to the department map. -/
def firstDeptName (data : List (List String)) (k : String) : Option String :=
  (data.find? (deptPred k)).map (fun r => pyStrip (r.getD 1 ("")))

/-- A file inside a managed folder, as `remove_old_files` sees it: its
modification time, whether the glob pattern selects it, and whether the
per-file `stat`/`unlink` raises (the swallowed exception of lines 77-82). -/
structure FSFile where
  mtime : Int
  matchesPattern : Bool
  opFails : Bool
deriving DecidableEq, Repr

/-- A file is deleted by the purge scan exactly when the pattern selects
it, its per-file operation does not raise, and it is older than the cutoff. -/
def delPred (cutoff : Int) (f : FSFile) : Bool :=
  f.matchesPattern && !f.opFails && decide (f.mtime < cutoff)

/-- The scan loop of `remove_old_files` (lines 76-82): returns the
surviving files and the count of successful deletions. -/
def removeOldFilesGo (cutoff : Int) : List FSFile → List FSFile × Nat
  | [] => ([], 0)
  | f :: fs =>
    let r := removeOldFilesGo cutoff fs
    if delPred cutoff f then (r.1, r.2 + 1) else (f :: r.1, r.2)

/-- Source `remove_old_files` (lines 71-83): no deletion when
`retain_days ≤ 0` or the folder is absent; otherwise scan with cutoff
`now - retain_days * 86400`. -/
def remove_old_files (folderExists : Bool) (files : List FSFile) (retainDays : Int) (now : Int) :
    List FSFile × Nat :=
  if retainDays ≤ 0 ∨ folderExists = false then (files, 0)
  else removeOldFilesGo (now - retainDays * 86400) files

/-- Validity of the digit part accepted by Python `int` (ASCII decimal
digits, single underscores allowed only between digits). -/
def pyIntDigitsOk (cs : List Char) : Bool :=
  !cs.isEmpty && cs.all (fun c => c.isDigit || c == '_') &&
  cs.head? != some '_' && cs.getLast? != some '_' &&
  (cs.zip cs.tail).all (fun p => !(p.1 == '_' && p.2 == '_'))

/-- Numeric value of a digit list. -/
def digitsVal (cs : List Char) : Nat :=
  cs.foldl (fun n c => n * 10 + (c.toNat - 48)) 0

/-- Python `int(s)` on a decimal string (ASCII scope): strip the
whitespace, optional sign, then digits; `none` models the raised
`ValueError` that `build_xml` swallows with `continue`. -/
def pyInt (s : String) : Option Int :=
  let t := pyStripL s.data
  let sd : Int × List Char :=
    match t with
    | '+' :: rest => (1, rest)
    | '-' :: rest => (-1, rest)
    | _ => (1, t)
  if pyIntDigitsOk sd.2 then
    some (sd.1 * (digitsVal (sd.2.filter (fun c => !(c == '_'))) : Int))
  else none

/-- A record is emitted into the document exactly when both required
fields parse as integers (`build_xml` lines 256-260). -/
def recBothInt (r : Rec) : Bool := (pyInt r.oper).isSome && (pyInt r.newd).isSome

/-- One emitted data row of `build_xml` (lines 261-267): a constant
`[u:1]` marker cell and the two parsed values as `Number` cells. -/
def recRowXml (r : Rec) : Option String :=
  match pyInt r.oper, pyInt r.newd with
  | some o, some n =>
    some ("   <Row>\n    <Cell><Data ss:Type=\"String\">[u:1]</Data></Cell>\n    <Cell><Data ss:Type=\"Number\">" ++ toString o ++ "</Data></Cell>\n    <Cell><Data ss:Type=\"Number\">" ++ toString n ++ "</Data></Cell>\n   </Row>\n")
  | _, _ => none

/-- The sequence of emitted data rows of `build_xml`. -/
def xmlDataRows (records : List Rec) : List String := records.filterMap recRowXml

/-- Head of the generated document before its first row (lines 216-247),
with the build-time creation timestamp spliced in. -/
def xmlPreamble (createdUtc : String) : String :=
  "<?xml version=\"1.0\"?>\n" ++
  "<?mso-application progid=\"Excel.Sheet\"?>\n" ++
  "<Workbook xmlns=\"urn:schemas-microsoft-com:office:spreadsheet\"\n" ++
  " xmlns:o=\"urn:schemas-microsoft-com:office:office\"\n" ++
  " xmlns:x=\"urn:schemas-microsoft-com:office:excel\"\n" ++
  " xmlns:ss=\"urn:schemas-microsoft-com:office:spreadsheet\"\n" ++
  " xmlns:html=\"http://www.w3.org/TR/REC-html40\">\n" ++
  " <DocumentProperties xmlns=\"urn:schemas-microsoft-com:office:office\">\n" ++
  "  <Author>Operator Department Updater</Author>\n" ++
  "  <LastAuthor>Operator Department Updater</LastAuthor>\n" ++
  "  <Created>" ++ createdUtc ++ "</Created>\n" ++
  "  <Version>16.00</Version>\n" ++
  " </DocumentProperties>\n" ++
  " <ExcelWorkbook xmlns=\"urn:schemas-microsoft-com:office:excel\">\n" ++
  "  <ProtectStructure>False</ProtectStructure>\n" ++
  "  <ProtectWindows>False</ProtectWindows>\n" ++
  " </ExcelWorkbook>\n" ++
  " <Styles>\n" ++
  "  <Style ss:ID=\"Default\" ss:Name=\"Normal\">\n" ++
  "   <Alignment ss:Vertical=\"Bottom\"/>\n" ++
  "   <Borders/>\n" ++
  "   <Font ss:FontName=\"Calibri\" x:Family=\"Swiss\" ss:Size=\"11\" ss:Color=\"#000000\"/>\n" ++
  "   <Interior/>\n" ++
  "   <NumberFormat/>\n" ++
  "   <Protection/>\n" ++
  "  </Style>\n" ++
  "  <Style ss:ID=\"s62\">\n" ++
  "   <NumberFormat ss:Format=\"@\"/>\n" ++
  "  </Style>\n" ++
  " </Styles>\n" ++
  " <Worksheet ss:Name=\"Work Order Center\">\n" ++
  "  <Table ss:ExpandedColumnCount=\"3\" x:FullColumns=\"1\" x:FullRows=\"1\">\n"

/-- The fixed schema/version marker row emitted first (lines 248-252). -/
def markerRow : String :=
  "   <Row>\n" ++
  "    <Cell ss:StyleID=\"s62\"><Data ss:Type=\"Number\">2022</Data></Cell>\n" ++
  "    <Cell ss:StyleID=\"s62\"><Data ss:Type=\"String\">101:2</Data></Cell>\n" ++
  "    <Cell ss:StyleID=\"s62\"><Data ss:Type=\"String\">103:4</Data></Cell>\n" ++
  "   </Row>\n"

/-- Tail of the generated document (lines 268-275). -/
def xmlTail : String :=
  "  </Table>\n" ++
  "  <WorksheetOptions xmlns=\"urn:schemas-microsoft-com:office:excel\">\n" ++
  "   <ProtectObjects>False</ProtectObjects>\n" ++
  "   <ProtectScenarios>False</ProtectScenarios>\n" ++
  "  </WorksheetOptions>\n" ++
  " </Worksheet>\n" ++
  "</Workbook>\n"

/-- Source `build_xml` (lines 214-276), with the creation timestamp
(`datetime.now`) passed explicitly. -/
def build_xml (createdUtc : String) (records : List Rec) : String :=
  (xmlPreamble createdUtc ++ markerRow) ++ String.join (xmlDataRows records) ++ xmlTail

/-- Outcome of the `subprocess.run` call when the loader is invoked
(line 380): a normal exit with a code, a `TimeoutExpired` after 180
seconds, or any other raised exception. -/
inductive LoaderRun where
  | exits (code : Int)
  | timeout
  | raises (msg : String)
deriving DecidableEq, Repr

/-- The `fa_result` classification of step 5 (lines 366-392): the
loader only runs when an XML document was generated and the executable
exists; a missing document dominates a missing executable. -/
def faResult (xmlGenerated exeExists : Bool) (run : LoaderRun) : String :=
  if xmlGenerated && exeExists then
    match run with
    | .exits c => if c = 0 then "SUCCESS" else "FAILED (exit code " ++ toString c ++ ")"
    | .timeout => "FAILED (timeout)"
    | .raises e => "FAILED (exception: " ++ e ++ ")"
  else if !xmlGenerated then "SKIPPED (no XML)"
  else "FAILED (FADATALOADER.EXE not found)"

/-- Source `find_latest_txt_after` (lines 85-97) over the mtimes of the
`.txt` files in the folder: newest file modified at or after `epoch`,
with the accumulator starting at mtime 0 as in the source. -/
def find_latest_txt_after (folderExists : Bool) (mtimes : List Int) (epoch : Int) : Option Int :=
  if folderExists = false then none
  else
    (mtimes.foldl
      (fun acc m => if epoch ≤ m ∧ acc.2 < m then (some m, m) else acc)
      ((none : Option Int), (0 : Int))).1

/-- Maximum of a non-empty mtime list (Python `max` at line 402). -/
def listMaxInt (m : Int) (ms : List Int) : Int :=
  ms.foldl (fun a b => if a < b then b else a) m

/-- All effect outcomes one run of `main` can observe, gathered into a
record: flags say whether each external operation raises, lists stand
for folder contents, and `loaderRun` for the subprocess outcome.
Configuration loading and folder creation (lines 282-302) are taken as
already succeeded; the claims under verification all concern later steps. -/
structure World where
  assetsInputExists : Bool
  inputCopyFails : Bool
  copyErrMsg : String
  inputDirFiles : List FSFile
  retainDays : Int
  now : Int
  csvReadFails : Bool
  csvErrMsg : String
  csvRows : List (List String)
  createdUtc : String
  xmlWriteFails : Bool
  xmlErrMsg : String
  xmlName : String
  runfileWriteFails : Bool
  runfileErrMsg : String
  exeExists : Bool
  loaderRun : LoaderRun
  startEpoch : Int
  activeExists : Bool
  activeRows : List (List String)
  faFolderExists : Bool
  faTxtMtimes : List Int
  emailSaveFails : Bool
  emailSaveErrMsg : String
  recipients : List String
  emailSendOk : Bool
  emailSendErrMsg : String
  whenStr : String
  logsDirFiles : List FSFile
deriving Repr

/-- The narrative/status part of `RunContext` (lines 26-43). -/
structure Ctx where
  lines : List String
  subjectStatus : String
deriving DecidableEq, Repr

/-- State of the run when it reaches the loader step: narrative and
status after steps 1-4, the parsed records and the `xml_generated` flag. -/
structure PreLoaderOut where
  ctx : Ctx
  records : List Rec
  xmlGenerated : Bool
deriving DecidableEq, Repr

/-- Retention line written after the input copy (lines 318-320). -/
def inputRetentionLines (w : World) : List String :=
  let n := (remove_old_files true w.inputDirFiles w.retainDays w.now).2
  if n ≠ 0 then
    ["Removed old input files older than " ++ toString w.retainDays ++ " days: " ++ toString n]
  else []

/-- Steps 1-4 of `main` (lines 304-364): copy the input, prune old
input copies, parse, build and write the XML, write the runfile. -/
def preLoader (w : World) : PreLoaderOut :=
  let (lines1, st1, destOk) :=
    if w.assetsInputExists then
      if w.inputCopyFails then
        (["Input copy failed: " ++ w.copyErrMsg], "ISSUE", false)
      else
        (["Input CSV copied to local input folder"], "OK", true)
    else
      (["Input source not found"], "ISSUE", false)
  let lines1b := lines1 ++ inputRetentionLines w
  let (lines2, st2, records) :=
    if destOk then
      if w.csvReadFails then
        (lines1b ++ ["CSV parse failed: " ++ w.csvErrMsg], "ISSUE", ([] : List Rec))
      else
        match read_unmatched w.csvRows with
        | .error e => (lines1b ++ ["CSV parse failed: " ++ e], "ISSUE", [])
        | .ok recs =>
          (lines1b ++ ["Parsed " ++ toString recs.length ++ " record(s) from CSV"],
           if recs.isEmpty then "ISSUE" else st1, recs)
    else (lines1b, st1, [])
  let (lines3, st3, xmlGen) :=
    if records.isEmpty then
      (lines2 ++ ["No records to write into XML"], "ISSUE", false)
    else if w.xmlWriteFails then
      (lines2 ++ ["XML generation failed: " ++ w.xmlErrMsg], "ISSUE", false)
    else (lines2 ++ ["XML generated: " ++ w.xmlName], st2, true)
  let lines4 :=
    if w.runfileWriteFails then lines3 ++ ["Runfile write failed: " ++ w.runfileErrMsg]
    else lines3 ++ ["Data loader runfile prepared"]
  ⟨⟨lines4, st3⟩, records, xmlGen⟩

/-- Step 7 of `main` (lines 399-403): locate the loader's raw `.txt`
log.  When `find_latest_txt_after` finds nothing and the folder exists,
Python evaluates `max()` over the folder's `.txt` files, which raises
`ValueError` on an empty sequence; the error escapes to the top-level
handler. -/
def faTxtLookup (w : World) : Except String (Option Int) :=
  match find_latest_txt_after w.faFolderExists w.faTxtMtimes w.startEpoch with
  | some m => .ok (some m)
  | none =>
    if w.faFolderExists then
      match w.faTxtMtimes with
      | [] => .error ("max() arg is an empty sequence")
      | m :: ms => .ok (some (listMaxInt m ms))
    else .ok none

/-- Observable outcome of one run of `main`. -/
structure MainOut where
  lines : List String
  subjectStatus : String
  faRes : String
  subject : Option String
  emailSaved : Bool
  emailAttempted : Bool
  emailSent : Bool
  logRetentionRan : Bool
  fatal : Option String
  fallbackLog : List String
deriving DecidableEq, Repr

/-- Source `main` (lines 279-473), modelled as the pure function `mainRun` over the `World`
of effect outcomes.  Steps 1-4 are `preLoader`; step 5 classifies the
loader invocation and makes the overall status authoritative; step 7
may raise, in which case the top-level handler (lines 468-473) records
a single fatal line in the fallback log and every later step is
skipped.  Reads of existing files and log appends are modelled as
succeeding; the email body rendering (pure string work) is not
reproduced, only its persistence and send outcomes. -/
def mainRun (w : World) : MainOut :=
  let p := preLoader w
  let fa := faResult p.xmlGenerated w.exeExists w.loaderRun
  let st5 := if pyStartswith fa ("SUCCESS") then "SUCCESS" else "ISSUE"
  let lines5 := p.ctx.lines ++ ["Data loader: " ++ fa]
  match faTxtLookup w with
  | .error e =>
    { lines := lines5, subjectStatus := st5, faRes := fa, subject := none,
      emailSaved := false, emailAttempted := false, emailSent := false,
      logRetentionRan := false, fatal := some e,
      fallbackLog := ["[FATAL] " ++ e] }
  | .ok _ =>
    let saveLine :=
      if w.emailSaveFails then "Email HTML save failed: " ++ w.emailSaveErrMsg
      else "Email report generated and saved"
    let subject :=
      "[Operator Dept Update] " ++ w.whenStr ++ " — " ++ st5 ++ " — " ++
        toString p.records.length ++ " records"
    let (sent, errm) :=
      if w.recipients.isEmpty then (false, "No recipients configured")
      else if w.emailSendOk then (true, "")
      else (false, w.emailSendErrMsg)
    let sendLine := if sent then "Email sent" else "Email send failed: " ++ errm
    let removedLogs := (remove_old_files true w.logsDirFiles w.retainDays w.now).2
    let retLines :=
      if removedLogs ≠ 0 then
        ["Removed old logs older than " ++ toString w.retainDays ++ " days: " ++ toString removedLogs]
      else []
    { lines := lines5 ++ ([saveLine] ++ [sendLine] ++ retLines),
      subjectStatus := st5, faRes := fa, subject := some subject,
      emailSaved := !w.emailSaveFails, emailAttempted := true, emailSent := sent,
      logRetentionRan := true, fatal := none, fallbackLog := [] }

/-- A concrete world whose loader log subfolder exists but holds no
`.txt` file (used to exercise the fatal fallback path). -/
def emptyLogWorld : World :=
  { assetsInputExists := true, inputCopyFails := false, copyErrMsg := ""
    inputDirFiles := [], retainDays := 30, now := 1000000
    csvReadFails := false, csvErrMsg := ""
    csvRows := [["OPER_oper_no", "CS_Dept"], ["42", "7"]]
    createdUtc := "2022-01-01T00:00:00Z"
    xmlWriteFails := false, xmlErrMsg := ""
    xmlName := "2022-01-01 update operator depts.xml"
    runfileWriteFails := false, runfileErrMsg := ""
    exeExists := true, loaderRun := .exits 0, startEpoch := 500000
    activeExists := true, activeRows := [["10", "Sales", "Jane", "7"]]
    faFolderExists := true, faTxtMtimes := []
    emailSaveFails := false, emailSaveErrMsg := ""
    recipients := ["a@b.c"], emailSendOk := true, emailSendErrMsg := ""
    whenStr := "Jan 01, 2022 00:00", logsDirFiles := [] }

/-! ## Helper lemmas -/

theorem dropWhile_dropWhile_same (p : Char → Bool) (l : List Char) :
    (l.dropWhile p).dropWhile p = l.dropWhile p := by
  induction l with
  | nil => rfl
  | cons h t ih =>
    by_cases hp : p h = true
    · simp [List.dropWhile_cons, hp, ih]
    · simp [List.dropWhile_cons, hp]

theorem head?_dropWhile_false (p : Char → Bool) (l : List Char) (a : Char)
    (h : (l.dropWhile p).head? = some a) : p a = false := by
  induction l with
  | nil => simp at h
  | cons x t ih =>
    by_cases hp : p x = true
    · rw [List.dropWhile_cons, if_pos hp] at h
      exact ih h
    · rw [List.dropWhile_cons, if_neg hp] at h
      simp at h
      subst h
      simpa using hp

theorem dropWhile_eq_self_of_head (p : Char → Bool) (l : List Char)
    (h : ∀ a, l.head? = some a → p a = false) : l.dropWhile p = l := by
  cases l with
  | nil => rfl
  | cons x t =>
    have hx := h x rfl
    rw [List.dropWhile_cons, if_neg (by simp [hx])]

theorem mem_dropWhile_of_not (p : Char → Bool) (l : List Char) (c : Char)
    (hc : c ∈ l) (hp : p c = false) : c ∈ l.dropWhile p := by
  induction l with
  | nil => simp at hc
  | cons x t ih =>
    by_cases hx : p x = true
    · rw [List.dropWhile_cons, if_pos hx]
      rcases List.mem_cons.mp hc with h | h
      · subst h; rw [hp] at hx; exact absurd hx (by simp)
      · exact ih h
    · rw [List.dropWhile_cons, if_neg hx]
      exact hc

theorem pyStripL_dropWhile_self (l : List Char) :
    (pyStripL l).dropWhile Char.isWhitespace = pyStripL l := by
  unfold pyStripL
  set a := l.dropWhile Char.isWhitespace with ha
  set r := a.reverse.dropWhile Char.isWhitespace with hr
  apply dropWhile_eq_self_of_head
  intro c hc
  -- the head of `r.reverse` is the head of `a` since `r.reverse ++ junk = a`
  have hsplit : a.reverse.takeWhile Char.isWhitespace ++ r = a.reverse :=
    List.takeWhile_append_dropWhile _ _
  have ha2 : a = r.reverse ++ (a.reverse.takeWhile Char.isWhitespace).reverse := by
    have := congrArg List.reverse hsplit
    simpa [List.reverse_append] using this.symm
  rcases hrr : r.reverse with _ | ⟨x, xs⟩
  · rw [hrr] at hc; simp at hc
  · rw [hrr] at hc
    simp at hc
    have hax : a.head? = some x := by
      rw [ha2, hrr]; rfl
    have hxw := head?_dropWhile_false Char.isWhitespace l x (by rw [← ha]; exact hax)
    rw [hc] at hxw; exact hxw

theorem pyStripL_idem (l : List Char) : pyStripL (pyStripL l) = pyStripL l := by
  show ((((pyStripL l).dropWhile Char.isWhitespace).reverse).dropWhile Char.isWhitespace).reverse
      = pyStripL l
  rw [pyStripL_dropWhile_self]
  have hrev : (pyStripL l).reverse.dropWhile Char.isWhitespace = (pyStripL l).reverse := by
    apply dropWhile_eq_self_of_head
    intro a hh
    have hpy : (pyStripL l).reverse
        = (l.dropWhile Char.isWhitespace).reverse.dropWhile Char.isWhitespace := by
      unfold pyStripL; rw [List.reverse_reverse]
    rw [hpy] at hh
    exact head?_dropWhile_false _ _ _ hh
  rw [hrev, List.reverse_reverse]

theorem pyStripL_ne_nil (l : List Char) (c : Char) (hc : c ∈ l)
    (hw : c.isWhitespace = false) : pyStripL l ≠ [] := by
  unfold pyStripL
  intro h
  have h1 : c ∈ l.dropWhile Char.isWhitespace := mem_dropWhile_of_not _ _ _ hc hw
  have h2 : c ∈ (l.dropWhile Char.isWhitespace).reverse := by simpa using h1
  have h3 : c ∈ (l.dropWhile Char.isWhitespace).reverse.dropWhile Char.isWhitespace :=
    mem_dropWhile_of_not _ _ _ h2 hw
  have h4 : c ∈ ((l.dropWhile Char.isWhitespace).reverse.dropWhile Char.isWhitespace).reverse := by
    simpa using h3
  rw [h] at h4
  simp at h4

theorem pyStripL_subset (l : List Char) (c : Char) (hc : c ∈ pyStripL l) : c ∈ l := by
  unfold pyStripL at hc
  rw [List.mem_reverse] at hc
  have h1 := (List.dropWhile_sublist (l := (l.dropWhile Char.isWhitespace).reverse)
    Char.isWhitespace).mem hc
  rw [List.mem_reverse] at h1
  exact (List.dropWhile_sublist (l := l) Char.isWhitespace).mem h1

theorem mk_eq_empty_iff (l : List Char) : String.mk l = "" ↔ l = [] := by
  constructor
  · intro h
    have h2 := congrArg String.data h
    exact h2
  · intro h
    rw [h]

theorem normNumL_no_digit (l : List Char) (h : l.filter Char.isDigit = []) :
    normNumL l = pyStripL l := by
  simp [normNumL, h]

theorem normNumL_digit (l : List Char) (h : ¬ l.filter Char.isDigit = []) :
    normNumL l =
      (if (l.filter Char.isDigit).dropWhile (fun c => c == '0') = [] then ['0']
       else (l.filter Char.isDigit).dropWhile (fun c => c == '0')) := by
  simp [normNumL, h]

theorem normNumL_idem (l : List Char) : normNumL (normNumL l) = normNumL l := by
  by_cases ht : l.filter Char.isDigit = []
  · rw [normNumL_no_digit l ht]
    have h2 : (pyStripL l).filter Char.isDigit = [] := by
      rw [List.filter_eq_nil_iff]
      intro a ha
      exact (List.filter_eq_nil_iff.mp ht) a (pyStripL_subset l a ha)
    rw [normNumL_no_digit _ h2, pyStripL_idem]
  · rw [normNumL_digit l ht]
    by_cases hu : (l.filter Char.isDigit).dropWhile (fun c => c == '0') = []
    · rw [if_pos hu]
      decide
    · rw [if_neg hu]
      set u := (l.filter Char.isDigit).dropWhile (fun c => c == '0') with hudef
      have hdig : ∀ c ∈ u, Char.isDigit c = true := by
        intro c hc
        have hct : c ∈ l.filter Char.isDigit :=
          (List.dropWhile_sublist (fun c => c == '0')).mem hc
        exact List.of_mem_filter hct
      have hfu : u.filter Char.isDigit = u := List.filter_eq_self.mpr hdig
      have hne : ¬ u.filter Char.isDigit = [] := by rw [hfu]; exact hu
      have hdw : u.dropWhile (fun c => c == '0') = u := by
        apply dropWhile_eq_self_of_head
        intro a ha
        exact head?_dropWhile_false _ (l.filter Char.isDigit) a (by rw [← hudef]; exact ha)
      rw [normNumL_digit u hne, hfu, hdw, if_neg hu]

theorem normNum_eq_empty_iff (s : String) : normNum s = "" ↔ normNumL s.data = [] := by
  constructor
  · intro h
    exact congrArg String.data h
  · intro h
    show String.mk (normNumL s.data) = ""
    rw [h]

/-! ## Claim C4 -/

/-- Claim C4, counterexample: the whitespace-only string is a non-empty
input on which `norm_num` returns the empty string (no digit survives,
so the stripped original — which is empty — is returned). -/
theorem C4_counterexample : normNum (" ") = "" ∧ (" " : String) ≠ "" := by
  constructor
  · decide
  · decide

/-- Claim C4 (amended): `norm_num` strips every non-digit character
when the input contains a digit (the result is all digits, non-empty,
and carries no leading zero unless it is exactly the string zero); on a
digit-free input it returns the trimmed original unchanged; and its
result is non-empty whenever the input contains a digit or any
non-whitespace character (a whitespace-only input yields the empty
string, as the counterexample shows). -/
theorem C4_normNum_spec (s : String) :
    (s.data.any Char.isDigit = true →
       (normNum s).data.all Char.isDigit = true ∧ normNum s ≠ "" ∧
       (normNum s = "0" ∨ (normNum s).data.head? ≠ some '0')) ∧
    (s.data.any Char.isDigit = false → normNum s = pyStrip s) ∧
    (s.data.any (fun c => !c.isWhitespace) = true → normNum s ≠ "") := by
  have hdata : (normNum s).data = normNumL s.data := rfl
  refine ⟨?_, ?_, ?_⟩
  · intro hany
    have ht : ¬ s.data.filter Char.isDigit = [] := by
      rcases List.any_eq_true.mp hany with ⟨c, hc, hcd⟩
      intro hnil
      exact absurd hcd (by simpa using (List.filter_eq_nil_iff.mp hnil) c hc)
    have hval := normNumL_digit s.data ht
    by_cases hu : (s.data.filter Char.isDigit).dropWhile (fun c => c == '0') = []
    · rw [if_pos hu] at hval
      refine ⟨?_, ?_, ?_⟩
      · rw [hdata, hval]; decide
      · rw [ne_eq, normNum_eq_empty_iff s, hval]
        simp
      · left
        show String.mk (normNumL s.data) = "0"
        rw [hval]
    · rw [if_neg hu] at hval
      set u := (s.data.filter Char.isDigit).dropWhile (fun c => c == '0') with hudef
      have hdig : ∀ c ∈ u, Char.isDigit c = true := by
        intro c hc
        exact List.of_mem_filter ((List.dropWhile_sublist (fun c => c == '0')).mem hc)
      refine ⟨?_, ?_, ?_⟩
      · rw [hdata, hval]
        exact List.all_eq_true.mpr hdig
      · rw [ne_eq, normNum_eq_empty_iff s, hval]
        exact hu
      · right
        rw [hdata, hval]
        intro hh
        rcases hu2 : u with _ | ⟨x, xs⟩
        · exact hu hu2
        · rw [hu2] at hh
          simp at hh
          have hx0 := head?_dropWhile_false (fun c => c == '0')
            (s.data.filter Char.isDigit) x (by rw [← hudef, hu2]; rfl)
          rw [hh] at hx0
          simp at hx0
  · intro hany
    have ht : s.data.filter Char.isDigit = [] := by
      rw [List.filter_eq_nil_iff]
      intro a ha
      exact (List.any_eq_false.mp hany) a ha
    show String.mk (normNumL s.data) = pyStrip s
    rw [normNumL_no_digit s.data ht]
    rfl
  · intro hany
    rcases List.any_eq_true.mp hany with ⟨c, hc, hcw⟩
    by_cases hd : s.data.any Char.isDigit = true
    · have ht : ¬ s.data.filter Char.isDigit = [] := by
        rcases List.any_eq_true.mp hd with ⟨x, hx, hxd⟩
        intro hnil
        exact absurd hxd (by simpa using (List.filter_eq_nil_iff.mp hnil) x hx)
      rw [ne_eq, normNum_eq_empty_iff s, normNumL_digit s.data ht]
      by_cases hu : (s.data.filter Char.isDigit).dropWhile (fun c => c == '0') = []
      · rw [if_pos hu]; simp
      · rw [if_neg hu]; exact hu
    · have ht : s.data.filter Char.isDigit = [] := by
        rw [List.filter_eq_nil_iff]
        intro a ha
        exact (List.any_eq_false.mp (Bool.eq_false_iff.mpr hd)) a ha
      rw [ne_eq, normNum_eq_empty_iff s, normNumL_no_digit s.data ht]
      exact pyStripL_ne_nil s.data c hc (by simpa using hcw)

/-- Claim C4, witness: a concrete digit-bearing input exercising the
amended theorem. -/
theorem C4_witness :
    (normNum ("0042x")).data.all Char.isDigit = true ∧ normNum ("0042x") ≠ "" ∧
    (normNum ("0042x") = "0" ∨ (normNum ("0042x")).data.head? ≠ some '0') :=
  (C4_normNum_spec "0042x").1 (by decide)

/-! ## Claim C8 -/

/-- Claim C8: `norm_num` is idempotent. -/
theorem C8_normNum_idempotent (s : String) : normNum (normNum s) = normNum s := by
  show String.mk (normNumL (normNumL s.data)) = String.mk (normNumL s.data)
  rw [normNumL_idem]

/-! ## Claim C5 -/

theorem removeOldFilesGo_spec (cutoff : Int) (files : List FSFile) :
    removeOldFilesGo cutoff files =
      (files.filter (fun f => !(delPred cutoff f)),
       (files.filter (delPred cutoff)).length) := by
  induction files with
  | nil => rfl
  | cons f fs ih =>
    by_cases hf : delPred cutoff f = true
    · simp [removeOldFilesGo, ih, List.filter_cons, hf]
    · simp [removeOldFilesGo, ih, List.filter_cons, Bool.eq_false_iff.mpr hf]

/-- Claim C5: the purge removes nothing and returns 0 when
`retain_days ≤ 0` or the folder is absent; otherwise it deletes exactly
the pattern-matching files whose mtime is older than
`now - retain_days` days whose per-file deletion does not raise, the
raising ones being swallowed and kept, and returns the exact count of
successful deletions. -/
theorem C5_remove_old_files_spec (fe : Bool) (files : List FSFile) (rd now : Int) :
    ((rd ≤ 0 ∨ fe = false) → remove_old_files fe files rd now = (files, 0)) ∧
    (0 < rd → fe = true →
       (remove_old_files fe files rd now).1 =
         files.filter (fun f => !(delPred (now - rd * 86400) f)) ∧
       (remove_old_files fe files rd now).2 =
         (files.filter (delPred (now - rd * 86400))).length) := by
  constructor
  · intro h
    rw [remove_old_files, if_pos h]
  · intro h1 h2
    have hcond : ¬ (rd ≤ 0 ∨ fe = false) := by
      rintro (h | h)
      · omega
      · rw [h2] at h; exact absurd h (by decide)
    rw [remove_old_files, if_neg hcond, removeOldFilesGo_spec]
    exact ⟨rfl, rfl⟩

/-- Claim C5, witness: a folder holding one old matching file, one
fresh matching file, one old non-matching file and one old matching
file whose deletion raises; only the first is removed. -/
theorem C5_witness :
    0 < (30 : Int) ∧ (true = true) ∧
    (remove_old_files true
        [⟨0, true, false⟩, ⟨2900000, true, false⟩, ⟨0, false, false⟩, ⟨0, true, true⟩]
        30 3000000).1 =
      [⟨2900000, true, false⟩, ⟨0, false, false⟩, ⟨0, true, true⟩] ∧
    (remove_old_files true
        [⟨0, true, false⟩, ⟨2900000, true, false⟩, ⟨0, false, false⟩, ⟨0, true, true⟩]
        30 3000000).2 = 1 := by
  have h := (C5_remove_old_files_spec true
    [⟨0, true, false⟩, ⟨2900000, true, false⟩, ⟨0, false, false⟩, ⟨0, true, true⟩]
    30 3000000).2 (by decide) rfl
  refine ⟨by decide, rfl, ?_, ?_⟩
  · rw [h.1]; decide
  · rw [h.2]; decide

/-! ## Claim C10 -/

theorem find?_singleton_pos (q : α → Bool) (a : α) (h : q a = true) :
    [a].find? q = some a := by
  rw [List.find?_cons_of_pos _ h]

theorem find?_singleton_neg (q : α → Bool) (a : α) (h : q a = false) :
    [a].find? q = none := by
  rw [List.find?_cons_of_neg _ (by simp [h]), List.find?_nil]

theorem foldl_nameMapStep_oper (l : List (Nat × String)) : ∀ init : NameMap,
    (l.foldl nameMapStep init).oper =
      Option.or
        ((l.reverse.find? (fun p => operSyns.contains (pyLower (pyStrip p.2)))).map Prod.fst)
        init.oper := by
  induction l with
  | nil => intro init; simp
  | cons p t ih =>
    intro init
    rw [List.foldl_cons, ih, List.reverse_cons, List.find?_append]
    rcases h : t.reverse.find? (fun p => operSyns.contains (pyLower (pyStrip p.2))) with _ | x
    · rw [h]
      by_cases hq : operSyns.contains (pyLower (pyStrip p.2)) = true
      · rw [find?_singleton_pos (fun p => operSyns.contains (pyLower (pyStrip p.2))) p hq]
        simp only [Option.map_none', Option.none_or, Option.map_some']
        show (if operSyns.contains (pyLower (pyStrip p.2)) then some p.1 else init.oper)
            = (some p.1).or init.oper
        rw [if_pos hq]
        cases init.oper <;> rfl
      · rw [find?_singleton_neg (fun p => operSyns.contains (pyLower (pyStrip p.2))) p (Bool.eq_false_iff.mpr hq)]
        simp only [Option.map_none', Option.none_or]
        show (if operSyns.contains (pyLower (pyStrip p.2)) then some p.1 else init.oper) = init.oper
        rw [if_neg (by simpa using hq)]
    · rw [h]
      rfl

theorem foldl_nameMapStep_newd (l : List (Nat × String)) : ∀ init : NameMap,
    (l.foldl nameMapStep init).newd =
      Option.or
        ((l.reverse.find? (fun p => newSyns.contains (pyLower (pyStrip p.2)))).map Prod.fst)
        init.newd := by
  induction l with
  | nil => intro init; simp
  | cons p t ih =>
    intro init
    rw [List.foldl_cons, ih, List.reverse_cons, List.find?_append]
    rcases h : t.reverse.find? (fun p => newSyns.contains (pyLower (pyStrip p.2))) with _ | x
    · rw [h]
      by_cases hq : newSyns.contains (pyLower (pyStrip p.2)) = true
      · rw [find?_singleton_pos (fun p => newSyns.contains (pyLower (pyStrip p.2))) p hq]
        simp only [Option.map_none', Option.none_or, Option.map_some']
        show (if newSyns.contains (pyLower (pyStrip p.2)) then some p.1 else init.newd)
            = (some p.1).or init.newd
        rw [if_pos hq]
        cases init.newd <;> rfl
      · rw [find?_singleton_neg (fun p => newSyns.contains (pyLower (pyStrip p.2))) p (Bool.eq_false_iff.mpr hq)]
        simp only [Option.map_none', Option.none_or]
        show (if newSyns.contains (pyLower (pyStrip p.2)) then some p.1 else init.newd) = init.newd
        rw [if_neg (by simpa using hq)]
    · rw [h]
      rfl

theorem foldl_nameMapStep_oldd (l : List (Nat × String)) : ∀ init : NameMap,
    (l.foldl nameMapStep init).oldd =
      Option.or
        ((l.reverse.find? (fun p => oldSyns.contains (pyLower (pyStrip p.2)))).map Prod.fst)
        init.oldd := by
  induction l with
  | nil => intro init; simp
  | cons p t ih =>
    intro init
    rw [List.foldl_cons, ih, List.reverse_cons, List.find?_append]
    rcases h : t.reverse.find? (fun p => oldSyns.contains (pyLower (pyStrip p.2))) with _ | x
    · rw [h]
      by_cases hq : oldSyns.contains (pyLower (pyStrip p.2)) = true
      · rw [find?_singleton_pos (fun p => oldSyns.contains (pyLower (pyStrip p.2))) p hq]
        simp only [Option.map_none', Option.none_or, Option.map_some']
        show (if oldSyns.contains (pyLower (pyStrip p.2)) then some p.1 else init.oldd)
            = (some p.1).or init.oldd
        rw [if_pos hq]
        cases init.oldd <;> rfl
      · rw [find?_singleton_neg (fun p => oldSyns.contains (pyLower (pyStrip p.2))) p (Bool.eq_false_iff.mpr hq)]
        simp only [Option.map_none', Option.none_or]
        show (if oldSyns.contains (pyLower (pyStrip p.2)) then some p.1 else init.oldd) = init.oldd
        rw [if_neg (by simpa using hq)]
    · rw [h]
      rfl

/-- Claim C10: in header detection, when several columns match the
synonym set of the same role, the rightmost matching column's index
wins — each role of the built name map equals the index of the last
matching header column. -/
theorem C10_rightmost_match_wins (header : List String) :
    (buildNameMap header).oper = lastIdxMatching operSyns header ∧
    (buildNameMap header).newd = lastIdxMatching newSyns header ∧
    (buildNameMap header).oldd = lastIdxMatching oldSyns header := by
  refine ⟨?_, ?_, ?_⟩
  · rw [buildNameMap, foldl_nameMapStep_oper, lastIdxMatching]
    exact Option.or_none
  · rw [buildNameMap, foldl_nameMapStep_newd, lastIdxMatching]
    exact Option.or_none
  · rw [buildNameMap, foldl_nameMapStep_oldd, lastIdxMatching]
    exact Option.or_none

/-! ## Claim C3 -/

/-- Claim C3: whenever the operator-id or the new-department role is
not matched by name, the positional fallback makes column 0 the
operator id; with at least 3 header columns, column 1 is the old and
column 2 the new department; with exactly 2 header columns, column 1
is the new department.  In particular the 2-row, 2-column headerless
file `A, 10` parses to one record whose new department is `10`. -/
theorem C3_positional_fallback :
    (∀ header : List String,
       ((buildNameMap header).oper.isNone || (buildNameMap header).newd.isNone) = true →
         (finalNameMap header).oper = some 0 ∧
         (3 ≤ header.length →
            (finalNameMap header).oldd = some 1 ∧ (finalNameMap header).newd = some 2) ∧
         (header.length = 2 → (finalNameMap header).newd = some 1)) ∧
    read_unmatched ([["A", "10"], ["A", " 10"]])
      = Except.ok ([{ oper := "A", newd := "10", oldd := none }]) := by
  constructor
  · intro header hcond
    refine ⟨?_, fun h3 => ⟨?_, ?_⟩, fun h2 => ?_⟩
    · simp [finalNameMap, hcond]
    · simp [finalNameMap, hcond, h3]
    · simp [finalNameMap, hcond, h3]
    · simp [finalNameMap, hcond, h2]
  · rfl

/-- Claim C3, witness: a 3-column header with no recognized names takes
the full positional scheme. -/
theorem C3_witness :
    (finalNameMap (["x", "y", "z"])).oper = some 0 ∧
    (finalNameMap (["x", "y", "z"])).oldd = some 1 ∧
    (finalNameMap (["x", "y", "z"])).newd = some 2 := by
  have h := C3_positional_fallback.1 (["x", "y", "z"]) (by decide)
  exact ⟨h.1, (h.2.1 (by decide)).1, (h.2.1 (by decide)).2⟩

/-! ## Claim C6 -/

theorem find?_cons_pos (q : α → Bool) (a : α) (l : List α) (h : q a = true) :
    (a :: l).find? q = some a := by
  rw [List.find?_cons_of_pos _ h]

theorem find?_cons_neg (q : α → Bool) (a : α) (l : List α) (h : q a = false) :
    (a :: l).find? q = l.find? q := by
  rw [List.find?_cons_of_neg _ (by simp [h])]

theorem lookup_append (k : String) (l1 l2 : List (String × String)) :
    (l1 ++ l2).lookup k = Option.or (l1.lookup k) (l2.lookup k) := by
  induction l1 with
  | nil => simp [List.lookup]
  | cons a t ih =>
    rcases a with ⟨k1, v1⟩
    rcases h : k == k1 with _ | _
    · simp only [List.cons_append, List.lookup, h]
      exact ih
    · simp only [List.cons_append, List.lookup, h]
      rfl

theorem lookup_singleton_eq (k v : String) : ([(k, v)] : List (String × String)).lookup k = some v := by
  simp [List.lookup]

theorem lookup_singleton_ne (k k1 v : String) (h : ¬ k = k1) :
    ([(k1, v)] : List (String × String)).lookup k = none := by
  simp only [List.lookup, beq_eq_false_iff_ne.mpr h]

theorem setdefault_lookup (m : List (String × String)) (k0 v k : String) :
    (setdefault m k0 v).lookup k =
      Option.or (m.lookup k) (if k = k0 then some v else none) := by
  rw [setdefault]
  rcases h : m.lookup k0 with _ | w
  · rw [lookup_append]
    by_cases hk : k = k0
    · subst hk
      rw [h, lookup_singleton_eq, if_pos rfl]
    · rw [lookup_singleton_ne k k0 v hk, if_neg hk]
  · by_cases hk : k = k0
    · subst hk
      rw [h, if_pos rfl]
      rfl
    · rw [if_neg hk]
      cases m.lookup k <;> rfl

theorem operPred_lt4 (k : String) (r : List String) (h : r.length < 4) :
    operPred k r = false := by
  have : decide (4 ≤ r.length) = false := by simp; omega
  simp [operPred, this]

theorem deptPred_lt4 (k : String) (r : List String) (h : r.length < 4) :
    deptPred k r = false := by
  have : decide (4 ≤ r.length) = false := by simp; omega
  simp [deptPred, this]

theorem activeStep_fst (m1 m2 : List (String × String)) (r : List String)
    (h : ¬ r.length < 4) :
    (activeStep (m1, m2) r).1 =
      (if normNum (r.getD 3 ("")) = "" then m1
       else setdefault m1 (normNum (r.getD 3 (""))) (pyStrip (r.getD 2 ("")))) := by
  simp [activeStep, h]

theorem activeStep_snd (m1 m2 : List (String × String)) (r : List String)
    (h : ¬ r.length < 4) :
    (activeStep (m1, m2) r).2 =
      (if normNum (r.getD 0 ("")) = "" then m2
       else setdefault m2 (normNum (r.getD 0 (""))) (pyStrip (r.getD 1 ("")))) := by
  simp [activeStep, h]

theorem activeStep_skip (m1 m2 : List (String × String)) (r : List String)
    (h : r.length < 4) : activeStep (m1, m2) r = (m1, m2) := by
  simp [activeStep, h]

theorem foldl_activeStep_fst (data : List (List String)) : ∀ m1 m2 k,
    ((data.foldl activeStep (m1, m2)).1).lookup k =
      Option.or (m1.lookup k) (firstOperName data k) := by
  induction data with
  | nil =>
    intro m1 m2 k
    simp only [List.foldl_nil, firstOperName, List.find?_nil, Option.map_none']
    exact Option.or_none.symm
  | cons r t ih =>
    intro m1 m2 k
    rw [List.foldl_cons]
    by_cases hlen : r.length < 4
    · rw [activeStep_skip m1 m2 r hlen, ih]
      have hfo : firstOperName (r :: t) k = firstOperName t k := by
        simp only [firstOperName]
        rw [find?_cons_neg _ r t (operPred_lt4 k r hlen)]
      rw [hfo]
    · rcases hAS : activeStep (m1, m2) r with ⟨M1, M2⟩
      rw [ih]
      have hM1 : M1 = (if normNum (r.getD 3 ("")) = "" then m1
          else setdefault m1 (normNum (r.getD 3 (""))) (pyStrip (r.getD 2 ("")))) := by
        rw [← activeStep_fst m1 m2 r hlen, hAS]
      by_cases hid : normNum (r.getD 3 ("")) = ""
      · rw [hM1, if_pos hid]
        have hpred : operPred k r = false := by
          simp only [operPred]
          rw [hid]
          simp
        have hfo : firstOperName (r :: t) k = firstOperName t k := by
          simp only [firstOperName]
          rw [find?_cons_neg _ r t hpred]
        rw [hfo]
      · rw [hM1, if_neg hid]
        by_cases hkk : normNum (r.getD 3 ("")) = k
        · have h4 : 4 ≤ r.length := by omega
          have hkne : ¬ k = "" := by rw [← hkk]; exact hid
          have hpred : operPred k r = true := by
            simp only [operPred]
            rw [hkk]
            simp [h4, hkne]
          have hfo : firstOperName (r :: t) k = some (pyStrip (r.getD 2 (""))) := by
            simp only [firstOperName]
            rw [find?_cons_pos _ r t hpred]
            rfl
          rw [hfo, setdefault_lookup, hkk, if_pos rfl]
          cases m1.lookup k <;> rfl
        · have hpred : operPred k r = false := by
            have hb : (normNum (r.getD 3 ("")) == k) = false := beq_eq_false_iff_ne.mpr hkk
            simp only [operPred]
            rw [hb]
            simp
          have hfo : firstOperName (r :: t) k = firstOperName t k := by
            simp only [firstOperName]
            rw [find?_cons_neg _ r t hpred]
          rw [hfo, setdefault_lookup, if_neg (fun he => hkk he.symm), Option.or_none]

theorem foldl_activeStep_snd (data : List (List String)) : ∀ m1 m2 k,
    ((data.foldl activeStep (m1, m2)).2).lookup k =
      Option.or (m2.lookup k) (firstDeptName data k) := by
  induction data with
  | nil =>
    intro m1 m2 k
    simp only [List.foldl_nil, firstDeptName, List.find?_nil, Option.map_none']
    exact Option.or_none.symm
  | cons r t ih =>
    intro m1 m2 k
    rw [List.foldl_cons]
    by_cases hlen : r.length < 4
    · rw [activeStep_skip m1 m2 r hlen, ih]
      have hfo : firstDeptName (r :: t) k = firstDeptName t k := by
        simp only [firstDeptName]
        rw [find?_cons_neg _ r t (deptPred_lt4 k r hlen)]
      rw [hfo]
    · rcases hAS : activeStep (m1, m2) r with ⟨M1, M2⟩
      rw [ih]
      have hM2 : M2 = (if normNum (r.getD 0 ("")) = "" then m2
          else setdefault m2 (normNum (r.getD 0 (""))) (pyStrip (r.getD 1 ("")))) := by
        rw [← activeStep_snd m1 m2 r hlen, hAS]
      by_cases hid : normNum (r.getD 0 ("")) = ""
      · rw [hM2, if_pos hid]
        have hpred : deptPred k r = false := by
          simp only [deptPred]
          rw [hid]
          simp
        have hfo : firstDeptName (r :: t) k = firstDeptName t k := by
          simp only [firstDeptName]
          rw [find?_cons_neg _ r t hpred]
        rw [hfo]
      · rw [hM2, if_neg hid]
        by_cases hkk : normNum (r.getD 0 ("")) = k
        · have h4 : 4 ≤ r.length := by omega
          have hkne : ¬ k = "" := by rw [← hkk]; exact hid
          have hpred : deptPred k r = true := by
            simp only [deptPred]
            rw [hkk]
            simp [h4, hkne]
          have hfo : firstDeptName (r :: t) k = some (pyStrip (r.getD 1 (""))) := by
            simp only [firstDeptName]
            rw [find?_cons_pos _ r t hpred]
            rfl
          rw [hfo, setdefault_lookup, hkk, if_pos rfl]
          cases m2.lookup k <;> rfl
        · have hpred : deptPred k r = false := by
            have hb : (normNum (r.getD 0 ("")) == k) = false := beq_eq_false_iff_ne.mpr hkk
            simp only [deptPred]
            rw [hb]
            simp
          have hfo : firstDeptName (r :: t) k = firstDeptName t k := by
            simp only [firstDeptName]
            rw [find?_cons_neg _ r t hpred]
          rw [hfo, setdefault_lookup, if_neg (fun he => hkk he.symm), Option.or_none]

theorem operPred_empty (r : List String) : operPred ("") r = false := by
  rcases hx : normNum (r.getD 3 ("")) == "" with _ | _
  · simp only [operPred]
    rw [hx]
    simp
  · have hbn : (normNum (r.getD 3 ("")) != "") = false := by
      simp only [bne, hx]
      rfl
    simp only [operPred]
    rw [hbn]
    simp

theorem deptPred_empty (r : List String) : deptPred ("") r = false := by
  rcases hx : normNum (r.getD 0 ("")) == "" with _ | _
  · simp only [deptPred]
    rw [hx]
    simp
  · have hbn : (normNum (r.getD 0 ("")) != "") = false := by
      simp only [bne, hx]
      rfl
    simp only [deptPred]
    rw [hbn]
    simp

theorem index_active_lookup (ex : Bool) (rows : List (List String)) (k : String) :
    ((index_active_list ex rows).1.lookup k =
       (if ex = true then firstOperName (rows.drop (startIdx rows)) k else none)) ∧
    ((index_active_list ex rows).2.lookup k =
       (if ex = true then firstDeptName (rows.drop (startIdx rows)) k else none)) := by
  rcases ex with _ | _
  · constructor
    · simp [index_active_list, List.lookup]
    · simp [index_active_list, List.lookup]
  · by_cases hrows : rows.isEmpty
    · have hnil : rows = [] := by
        rcases rows with _ | _
        · rfl
        · simp at hrows
      subst hnil
      constructor
      · simp [index_active_list, List.lookup, firstOperName]
      · simp [index_active_list, List.lookup, firstDeptName]
    · have hial : index_active_list true rows
          = (rows.drop (startIdx rows)).foldl activeStep ([], []) := by
        simp [index_active_list, hrows]
      constructor
      · rw [hial, foldl_activeStep_fst]
        simp [List.lookup]
      · rw [hial, foldl_activeStep_snd]
        simp [List.lookup]

/-! ## Claim C6 theorem -/

/-- Claim C6: both reference-index mappings are built first-write-wins:
the value found for a key is the one contributed by the first data row
(in file order, after the auto-detected header skip) that has at least
4 columns and whose normalized key column equals that key; later rows
with the same key are ignored, and the empty key is never present. -/
theorem C6_first_write_wins (ex : Bool) (rows : List (List String)) (k : String) :
    ((index_active_list ex rows).1.lookup k =
       (if ex = true then firstOperName (rows.drop (startIdx rows)) k else none)) ∧
    ((index_active_list ex rows).2.lookup k =
       (if ex = true then firstDeptName (rows.drop (startIdx rows)) k else none)) ∧
    (index_active_list ex rows).1.lookup ("") = none ∧
    (index_active_list ex rows).2.lookup ("") = none := by
  obtain ⟨h1, h2⟩ := index_active_lookup ex rows k
  obtain ⟨h1e, h2e⟩ := index_active_lookup ex rows ("")
  have hfo : firstOperName (rows.drop (startIdx rows)) ("") = none := by
    simp only [firstOperName]
    rw [List.find?_eq_none.mpr]
    · rfl
    · intro x hx
      simp [operPred_empty]
  have hfd : firstDeptName (rows.drop (startIdx rows)) ("") = none := by
    simp only [firstDeptName]
    rw [List.find?_eq_none.mpr]
    · rfl
    · intro x hx
      simp [deptPred_empty]
  refine ⟨h1, h2, ?_, ?_⟩
  · rw [h1e, hfo]
    cases ex <;> simp
  · rw [h2e, hfd]
    cases ex <;> simp

/-! ## Claim C7 -/

theorem recRowXml_none (r : Rec) (h : recBothInt r = false) : recRowXml r = none := by
  rcases h1 : pyInt r.oper with _ | o
  · simp [recRowXml, h1]
  · rcases h2 : pyInt r.newd with _ | n
    · simp [recRowXml, h1, h2]
    · exfalso
      simp [recBothInt, h1, h2] at h

theorem recRowXml_some (r : Rec) (h : recBothInt r = true) :
    ∃ s, recRowXml r = some s := by
  rcases h1 : pyInt r.oper with _ | o
  · exfalso; simp [recBothInt, h1] at h
  · rcases h2 : pyInt r.newd with _ | n
    · exfalso; simp [recBothInt, h1, h2] at h
    · exact ⟨"   <Row>\n    <Cell><Data ss:Type=\"String\">[u:1]</Data></Cell>\n    <Cell><Data ss:Type=\"Number\">" ++ toString o ++ "</Data></Cell>\n    <Cell><Data ss:Type=\"Number\">" ++ toString n ++ "</Data></Cell>\n   </Row>\n",
        by simp [recRowXml, h1, h2]⟩

theorem xmlDataRows_filter (recs : List Rec) :
    xmlDataRows (recs.filter recBothInt) = xmlDataRows recs := by
  induction recs with
  | nil => rfl
  | cons r t ih =>
    by_cases h : recBothInt r = true
    · obtain ⟨s, hs⟩ := recRowXml_some r h
      simp only [List.filter_cons, h, if_true, xmlDataRows, List.filterMap_cons, hs]
      rw [show List.filterMap recRowXml (t.filter recBothInt) = xmlDataRows (t.filter recBothInt) from rfl, ih]
      rfl
    · have hn := recRowXml_none r (Bool.eq_false_iff.mpr h)
      simp only [List.filter_cons, h, if_false, xmlDataRows, List.filterMap_cons, hn]
      exact ih

theorem xmlDataRows_length (recs : List Rec) :
    (xmlDataRows recs).length = (recs.filter recBothInt).length := by
  induction recs with
  | nil => rfl
  | cons r t ih =>
    by_cases h : recBothInt r = true
    · obtain ⟨s, hs⟩ := recRowXml_some r h
      simp only [xmlDataRows, List.filterMap_cons, hs, List.filter_cons, h, if_true,
        List.length_cons]
      rw [show (List.filterMap recRowXml t).length = (xmlDataRows t).length from rfl, ih]
    · have hn := recRowXml_none r (Bool.eq_false_iff.mpr h)
      simp only [xmlDataRows, List.filterMap_cons, hn, List.filter_cons, h, if_false]
      exact ih

/-- Claim C7: the generated document is the fixed preamble, then the
constant schema/version marker row, then exactly one data row per
record whose operator id and new department both parse as integers
(records failing integer parsing are silently absent: filtering them
away does not change the document), then the fixed tail. -/
theorem C7_build_xml_structure (c : String) (recs : List Rec) :
    build_xml c recs =
      (xmlPreamble c ++ markerRow) ++ String.join (xmlDataRows recs) ++ xmlTail ∧
    build_xml c recs = build_xml c (recs.filter recBothInt) ∧
    (xmlDataRows recs).length = (recs.filter recBothInt).length := by
  refine ⟨rfl, ?_, xmlDataRows_length recs⟩
  simp only [build_xml]
  rw [xmlDataRows_filter]

/-! ## Claim C2 -/

theorem data_append (a b : String) : (a ++ b).data = a.data ++ b.data := by
  cases a
  cases b
  rfl

theorem string_ne_of_head (a b : String) (c d : Char)
    (ha : a.data.head? = some c) (hb : b.data.head? = some d) (h : ¬ c = d) : ¬ a = b := by
  intro he
  rw [he] at ha
  rw [ha] at hb
  injection hb with h2
  exact h h2

theorem pyStartswith_false_of_head (s p : String) (c d : Char)
    (hs : s.data.head? = some c) (hp : p.data.head? = some d) (h : ¬ d = c) :
    pyStartswith s p = false := by
  rcases hsd : s.data with _ | ⟨x, xs⟩
  · rw [hsd] at hs
    simp at hs
  · rcases hpd : p.data with _ | ⟨y, ys⟩
    · rw [hpd] at hp
      simp at hp
    · rw [hsd] at hs
      rw [hpd] at hp
      simp at hs hp
      unfold pyStartswith
      rw [hsd, hpd]
      show (y == x && List.isPrefixOf ys xs) = false
      have hxy : (y == x) = false := by
        rw [hs, hp]
        exact beq_eq_false_iff_ne.mpr h
      rw [hxy]
      rfl

theorem faResult_skip_noxml (e : Bool) (r : LoaderRun) :
    faResult false e r = "SKIPPED (no XML)" := by
  simp [faResult]

theorem faResult_exe_missing (r : LoaderRun) :
    faResult true false r = "FAILED (FADATALOADER.EXE not found)" := by
  simp [faResult]

theorem faResult_exit (c : Int) (h : ¬ c = 0) :
    faResult true true (LoaderRun.exits c) = "FAILED (exit code " ++ toString c ++ ")" := by
  simp [faResult, h]

theorem faResult_exit0 : faResult true true (LoaderRun.exits 0) = "SUCCESS" := by
  simp [faResult]

theorem faResult_timeout : faResult true true LoaderRun.timeout = "FAILED (timeout)" := by
  simp [faResult]

theorem faResult_exc (m : String) :
    faResult true true (LoaderRun.raises m) = "FAILED (exception: " ++ m ++ ")" := by
  simp [faResult]

/-- Head and equality facts about the `fa_result` shapes: only the
zero-exit invocation of a generated document with a present executable
yields the exact `SUCCESS` string, and `startswith` agrees with
equality here. -/
theorem faResult_success_iff (x e : Bool) (r : LoaderRun) :
    (faResult x e r = "SUCCESS" ↔ x = true ∧ e = true ∧ r = LoaderRun.exits 0) ∧
    ((pyStartswith (faResult x e r) ("SUCCESS")) = true ↔ faResult x e r = "SUCCESS") := by
  rcases x with _ | _
  · rw [faResult_skip_noxml e r]
    constructor
    · constructor
      · intro h
        exact absurd h (by decide)
      · rintro ⟨h, -, -⟩
        exact absurd h (by decide)
    · constructor
      · intro h
        exact absurd h (by decide)
      · intro h
        exact absurd h (by decide)
  · rcases e with _ | _
    · rw [faResult_exe_missing r]
      constructor
      · constructor
        · intro h
          exact absurd h (by decide)
        · rintro ⟨-, h, -⟩
          exact absurd h (by decide)
      · constructor
        · intro h
          exact absurd h (by decide)
        · intro h
          exact absurd h (by decide)
    · rcases r with c | _ | m
      · by_cases hc : c = 0
        · subst hc
          rw [faResult_exit0]
          constructor
          · simp
          · constructor
            · intro h
              rfl
            · intro h
              decide
        · rw [faResult_exit c hc]
          have hhead : ("FAILED (exit code " ++ toString c ++ ")").data.head? = some 'F' := by
            rw [data_append, data_append]
            rfl
          have hne : ¬ ("FAILED (exit code " ++ toString c ++ ")") = "SUCCESS" :=
            string_ne_of_head _ _ 'F' 'S' hhead rfl (by decide)
          have hsw : pyStartswith ("FAILED (exit code " ++ toString c ++ ")") ("SUCCESS")
              = false :=
            pyStartswith_false_of_head _ _ 'F' 'S' hhead rfl (by decide)
          constructor
          · simp [hne, hc]
          · rw [hsw]
            simp [hne]
      · rw [faResult_timeout]
        constructor
        · constructor
          · intro h
            exact absurd h (by decide)
          · rintro ⟨-, -, h⟩
            exact absurd h (by decide)
        · constructor
          · intro h
            exact absurd h (by decide)
          · intro h
            exact absurd h (by decide)
      · rw [faResult_exc m]
        have hhead : ("FAILED (exception: " ++ m ++ ")").data.head? = some 'F' := by
          rw [data_append, data_append]
          rfl
        have hne : ¬ ("FAILED (exception: " ++ m ++ ")") = "SUCCESS" :=
          string_ne_of_head _ _ 'F' 'S' hhead rfl (by decide)
        have hsw : pyStartswith ("FAILED (exception: " ++ m ++ ")") ("SUCCESS") = false :=
          pyStartswith_false_of_head _ _ 'F' 'S' hhead rfl (by decide)
        constructor
        · simp [hne]
        · rw [hsw]
          simp [hne]

/-- Claim C2, counterexample: with a generated document and a missing
executable the outcome is the `FAILED (FADATALOADER.EXE not found)`
string — a FAILED outcome, not a SKIPPED one as the claim asserts. -/
theorem C2_counterexample :
    faResult true false (LoaderRun.exits 0) = "FAILED (FADATALOADER.EXE not found)" ∧
    pyStartswith (faResult true false (LoaderRun.exits 0)) ("SKIPPED") = false := by
  constructor
  · decide
  · decide

/-- Claim C2 (amended): the loader outcome is classified as SUCCESS on
exit code zero, FAILED-with-exit-code on a non-zero exit,
FAILED-timeout on the 180-second timeout, FAILED-exception on any
other exception, SKIPPED-no-document when no document was generated
(regardless of the executable), and FAILED-executable-missing — not
SKIPPED — when the document exists but the external tool binary does
not. -/
theorem C2_loader_classification (x e : Bool) (r : LoaderRun) :
    (x = true → e = true → r = LoaderRun.exits 0 → faResult x e r = "SUCCESS") ∧
    (x = true → e = true → ∀ c : Int, r = LoaderRun.exits c → ¬ c = 0 →
       faResult x e r = "FAILED (exit code " ++ toString c ++ ")") ∧
    (x = true → e = true → r = LoaderRun.timeout → faResult x e r = "FAILED (timeout)") ∧
    (x = true → e = true → ∀ m : String, r = LoaderRun.raises m →
       faResult x e r = "FAILED (exception: " ++ m ++ ")") ∧
    (x = false → faResult x e r = "SKIPPED (no XML)") ∧
    (x = true → e = false → faResult x e r = "FAILED (FADATALOADER.EXE not found)") := by
  refine ⟨?_, ?_, ?_, ?_, ?_, ?_⟩
  · intro hx he hr
    subst hx; subst he; subst hr
    exact faResult_exit0
  · intro hx he c hr hc
    subst hx; subst he; subst hr
    exact faResult_exit c hc
  · intro hx he hr
    subst hx; subst he; subst hr
    exact faResult_timeout
  · intro hx he m hr
    subst hx; subst he; subst hr
    exact faResult_exc m
  · intro hx
    subst hx
    exact faResult_skip_noxml e r
  · intro hx he
    subst hx; subst he
    exact faResult_exe_missing r

/-- Claim C2, witness: a non-zero exit code maps to the exit-code
failure string. -/
theorem C2_witness : faResult true true (LoaderRun.exits 7) = "FAILED (exit code 7)" := by
  have h := (C2_loader_classification true true (LoaderRun.exits 7)).2.1 rfl rfl 7 rfl (by decide)
  rw [h]
  decide

/-! ## Claim C1 -/

theorem mainRun_fields (w : World) :
    (mainRun w).subjectStatus =
      (if (pyStartswith (faResult (preLoader w).xmlGenerated w.exeExists w.loaderRun)
            ("SUCCESS")) = true
       then "SUCCESS" else "ISSUE") ∧
    (mainRun w).faRes = faResult (preLoader w).xmlGenerated w.exeExists w.loaderRun ∧
    List.IsPrefix (preLoader w).ctx.lines (mainRun w).lines := by
  rcases hft : faTxtLookup w with e | ft
  · refine ⟨?_, ?_, ?_⟩
    · simp only [mainRun, hft]
    · simp only [mainRun, hft]
    · simp only [mainRun, hft]
      exact List.prefix_append _ _
  · refine ⟨?_, ?_, ?_⟩
    · simp only [mainRun, hft]
    · simp only [mainRun, hft]
    · simp only [mainRun, hft]
      exact (List.prefix_append _ _).trans (List.prefix_append _ _)

/-- Claim C1: the overall run status is `SUCCESS` exactly when the
loader outcome is the `SUCCESS` string, which happens exactly when the
document was generated, the executable was present and the process
exited with code zero; every other outcome yields `ISSUE` (the status
set at the loader step ignores any earlier value); and the narrative
lines accumulated before the loader step stay untouched as a prefix of
the final narrative. -/
theorem C1_overall_status (w : World) :
    ((mainRun w).subjectStatus = "SUCCESS" ↔ (mainRun w).faRes = "SUCCESS") ∧
    ((mainRun w).faRes = "SUCCESS" ↔
       (preLoader w).xmlGenerated = true ∧ w.exeExists = true ∧
         w.loaderRun = LoaderRun.exits 0) ∧
    ((mainRun w).subjectStatus = "SUCCESS" ∨ (mainRun w).subjectStatus = "ISSUE") ∧
    List.IsPrefix (preLoader w).ctx.lines (mainRun w).lines := by
  obtain ⟨hs, hf, hp⟩ := mainRun_fields w
  obtain ⟨hiff, hsw⟩ :=
    faResult_success_iff (preLoader w).xmlGenerated w.exeExists w.loaderRun
  refine ⟨?_, ?_, ?_, hp⟩
  · rw [hs, hf]
    constructor
    · intro h
      by_cases hq : (pyStartswith (faResult (preLoader w).xmlGenerated w.exeExists w.loaderRun)
          ("SUCCESS")) = true
      · exact hsw.mp hq
      · rw [if_neg hq] at h
        exact absurd h (by decide)
    · intro h
      rw [if_pos (hsw.mpr h)]
  · rw [hf]
    exact hiff
  · rw [hs]
    by_cases hq : (pyStartswith (faResult (preLoader w).xmlGenerated w.exeExists w.loaderRun)
        ("SUCCESS")) = true
    · left
      rw [if_pos hq]
    · right
      rw [if_neg hq]

/-! ## Claim C9 -/

/-- Claim C9: when the loader's log subfolder exists but holds no
`.txt` file, the fallback `max()` over the empty file sequence raises
`ValueError`, which escapes to the top-level handler: the run ends
fatally with only the fallback fatal-log line written, the HTML report
is not persisted, no email send is attempted, and the remaining steps
(log retention, raw-log append) are skipped — the narrative stops at
the loader line. -/
theorem C9_empty_log_folder_fatal (w : World)
    (hfe : w.faFolderExists = true) (hmt : w.faTxtMtimes = []) :
    (mainRun w).fatal = some ("max() arg is an empty sequence") ∧
    (mainRun w).fallbackLog = ["[FATAL] " ++ "max() arg is an empty sequence"] ∧
    (mainRun w).emailSaved = false ∧
    (mainRun w).emailAttempted = false ∧
    (mainRun w).emailSent = false ∧
    (mainRun w).logRetentionRan = false ∧
    (mainRun w).subject = none ∧
    (mainRun w).lines =
      (preLoader w).ctx.lines ++
        ["Data loader: " ++ faResult (preLoader w).xmlGenerated w.exeExists w.loaderRun] := by
  have hfind : find_latest_txt_after w.faFolderExists w.faTxtMtimes w.startEpoch = none := by
    rw [find_latest_txt_after, hfe, hmt]
    rfl
  have hft : faTxtLookup w = Except.error ("max() arg is an empty sequence") := by
    rw [faTxtLookup, hfind, hfe, hmt]
    rfl
  refine ⟨?_, ?_, ?_, ?_, ?_, ?_, ?_, ?_⟩ <;> simp only [mainRun, hft]

/-- Claim C9, witness: the concrete world with an existing, empty
loader log subfolder takes the fatal path. -/
theorem C9_witness :
    (mainRun emptyLogWorld).fatal = some ("max() arg is an empty sequence") ∧
    (mainRun emptyLogWorld).emailSaved = false ∧
    (mainRun emptyLogWorld).emailAttempted = false ∧
    (mainRun emptyLogWorld).emailSent = false ∧
    (mainRun emptyLogWorld).logRetentionRan = false := by
  have h := C9_empty_log_folder_fatal emptyLogWorld rfl rfl
  exact ⟨h.1, h.2.2.1, h.2.2.2.1, h.2.2.2.2.1, h.2.2.2.2.2.1⟩
